import Mathlib

/-!
Verification development for the RealGibber Environmental-Adaptive Range
Sensing and Laser Link Control Loop.

The repository ships a Python binding/demo layer; the native core
(Environmental Model, Range Sensor, Alignment Tracker, Link Power/Modulation
Controller, Transmission Path) is not part of the visible sources, so those
components are modelled here from the specification.  The demo script
`examples/python_range_detection_demo.py` is embedded directly from its
source.  All numeric quantities are rationals.
-/

deriving instance DecidableEq for Except

namespace RealGibber

/-- Modelled from the spec: the error kinds of the core (spec section 7).
The native core that raises them is missing from the sources. -/
inductive LinkError where
  | InvalidConditions
  | SensorTimeout
  | SensorFault
  | InsufficientSamples
  | AlignmentRequired
  | LinkNotReady
  | StaleParameters
  | LinkBusy
  | HardwarePowerExceeded
deriving DecidableEq, Repr

/-- Modelled from the spec: `EnvironmentalConditions` snapshot (spec section 3).
The native data type is missing from the sources; fields follow the
binding constructor `RangeEnvironmentalConditions(...)` used in the demo. -/
structure EnvironmentalConditions where
  temperature_celsius : ℚ
  humidity_percent : ℚ
  pressure_hPa : ℚ
  wind_speed_mps : ℚ
  visibility_meters : ℚ
deriving DecidableEq, Repr

/-- Modelled from the spec: the invariant on `EnvironmentalConditions`
(spec section 3): temperature within [-60, 85] degrees C, humidity within
[0, 100], pressure > 0, visibility >= 0. -/
def conditionsValid (c : EnvironmentalConditions) : Bool :=
  decide (-60 ≤ c.temperature_celsius) && decide (c.temperature_celsius ≤ 85) &&
  decide (0 ≤ c.humidity_percent) && decide (c.humidity_percent ≤ 100) &&
  decide (0 < c.pressure_hPa) && decide (0 ≤ c.visibility_meters)

/-- Modelled from the spec: `update_environmental_conditions` (spec sections
4.1 and 6); the native implementation is missing from the sources.  Values
outside the invariant are rejected with `InvalidConditions`, not clamped;
on success the new conditions replace the active ones wholesale. -/
def update_environmental_conditions (new : EnvironmentalConditions) :
    Except LinkError EnvironmentalConditions :=
  if conditionsValid new then .ok new else .error .InvalidConditions

/-- Modelled from the spec: the conditions that are effective after an
update attempt — the new snapshot on success, the previously active
conditions when the update was rejected (spec section 4.1: callers must not
use stale conditions; previous conditions remain the effective ones). -/
def effectiveAfterUpdate (active new : EnvironmentalConditions) :
    EnvironmentalConditions :=
  match update_environmental_conditions new with
  | .ok c => c
  | .error _ => active

/-- Modelled from the spec: signal-attenuation estimate of the Environmental
Model (spec section 4.1) — increases with distance, decreases with
visibility; the native implementation is missing from the sources. -/
def attenuation (c : EnvironmentalConditions) (distance_m : ℚ) : ℚ :=
  3 * distance_m / c.visibility_meters

/-- Modelled from the spec: range categories (spec section 3). -/
inductive RangeCategory where
  | Near
  | Medium
  | Far
  | Extreme
deriving DecidableEq, Repr

/-- Modelled from the spec: the configurable ordered range-category
thresholds (spec sections 3 and 9); defaults Near < 10 m,
Medium 10-100 m, Far 100-1000 m, Extreme > 1000 m. -/
structure RangeThresholds where
  near_max : ℚ
  medium_max : ℚ
  far_max : ℚ
deriving DecidableEq, Repr

/-- Modelled from the spec: the default threshold configuration. -/
def defaultThresholds : RangeThresholds := ⟨10, 100, 1000⟩

/-- Modelled from the spec: the `range_category` lookup of the Range Sensor
(spec section 4.2); a distance exactly at a threshold belongs to the
farther band.  The native implementation is missing from the sources. -/
def range_category (th : RangeThresholds) (d : ℚ) : RangeCategory :=
  if d < th.near_max then .Near
  else if d < th.medium_max then .Medium
  else if d < th.far_max then .Far
  else .Extreme

/-- The half-open band of distances belonging to a category, used to state
that `range_category` is a total, non-overlapping partition. -/
def inBand (th : RangeThresholds) (c : RangeCategory) (d : ℚ) : Prop :=
  match c with
  | .Near => d < th.near_max
  | .Medium => th.near_max ≤ d ∧ d < th.medium_max
  | .Far => th.medium_max ≤ d ∧ d < th.far_max
  | .Extreme => th.far_max ≤ d

/-- Modelled from the spec: the Alignment Tracker states (spec section 4.3). -/
inductive AlignmentState where
  | Unlocked
  | Searching
  | Locked
  | Lost
deriving DecidableEq, Repr

/-- Modelled from the spec: Alignment Tracker configuration (spec sections
4.3 and 6): locking tolerance, larger loss (hysteresis) tolerance, minimum
dwell time, bounded feedback interval. -/
structure TrackerConfig where
  lock_tolerance_deg : ℚ
  loss_tolerance_deg : ℚ
  min_dwell_time_s : ℚ
  feedback_timeout_s : ℚ
deriving DecidableEq, Repr

/-- Modelled from the spec: one periodic angular-error feedback sample
(spec sections 4.3 and 6), carrying the time elapsed since the previous
sample. -/
structure FeedbackSample where
  azimuth_error_deg : ℚ
  elevation_error_deg : ℚ
  dt_s : ℚ
deriving DecidableEq, Repr

/-- Modelled from the spec: the Alignment Tracker state: current machine
state, latest angular-error sample, time spent continuously within the
locking tolerance while `Searching`, and the accumulated lock duration. -/
structure TrackerState where
  state : AlignmentState
  azimuth_error_deg : ℚ
  elevation_error_deg : ℚ
  in_tolerance_time_s : ℚ
  lock_duration_s : ℚ
deriving DecidableEq, Repr

/-- Both angular errors of a sample are within a tolerance. -/
def withinTol (tol : ℚ) (s : FeedbackSample) : Bool :=
  decide (|s.azimuth_error_deg| ≤ tol) && decide (|s.elevation_error_deg| ≤ tol)

/-- Modelled from the spec: an alignment attempt begins (spec section 4.3,
transition Unlocked/Lost to Searching); no other state is affected. -/
def begin_alignment (st : TrackerState) : TrackerState :=
  match st.state with
  | .Unlocked => { st with state := .Searching, in_tolerance_time_s := 0 }
  | .Lost => { st with state := .Searching, in_tolerance_time_s := 0 }
  | _ => st

/-- Modelled from the spec: the Alignment Tracker processing one feedback
sample (spec section 4.3).  Searching locks only after the angular error has
stayed within the locking tolerance for the minimum dwell time; Locked is
lost when the error exceeds the larger hysteresis tolerance or feedback is
late; `lock_duration_s` accumulates while Locked and resets to zero on any
transition away from Locked; the angular-error fields always take the latest
sample.  The native implementation is missing from the sources. -/
def tracker_step (cfg : TrackerConfig) (st : TrackerState) (s : FeedbackSample) :
    TrackerState :=
  let base := { st with azimuth_error_deg := s.azimuth_error_deg,
                        elevation_error_deg := s.elevation_error_deg }
  match st.state with
  | .Unlocked => base
  | .Searching =>
      if withinTol cfg.lock_tolerance_deg s then
        let t := st.in_tolerance_time_s + s.dt_s
        if cfg.min_dwell_time_s ≤ t then
          { base with state := .Locked, in_tolerance_time_s := t, lock_duration_s := 0 }
        else
          { base with in_tolerance_time_s := t }
      else
        { base with in_tolerance_time_s := 0 }
  | .Locked =>
      if withinTol cfg.loss_tolerance_deg s && decide (s.dt_s ≤ cfg.feedback_timeout_s) then
        { base with lock_duration_s := st.lock_duration_s + s.dt_s }
      else
        { base with state := .Lost, in_tolerance_time_s := 0, lock_duration_s := 0 }
  | .Lost => base

/-- Modelled from the spec: the `AlignmentStatus` view (spec section 3). -/
structure AlignmentStatus where
  is_aligned : Bool
  azimuth_error_deg : ℚ
  elevation_error_deg : ℚ
  lock_duration_s : ℚ
deriving DecidableEq, Repr

/-- Modelled from the spec: the read-only status exported by the Alignment
Tracker; `is_aligned` is true iff the state is `Locked` (spec section 4.3). -/
def alignment_status (st : TrackerState) : AlignmentStatus :=
  { is_aligned := decide (st.state = .Locked),
    azimuth_error_deg := st.azimuth_error_deg,
    elevation_error_deg := st.elevation_error_deg,
    lock_duration_s := st.lock_duration_s }

/-- Modelled from the spec: laser types; string-tagged in the binding
(the demo constructs `LaserEngine(laser_type="Visible", ...)`). -/
inductive LaserType where
  | Visible
  | Infrared
  | Ultraviolet
deriving DecidableEq, Repr

/-- Modelled from the spec: modulation schemes; string-tagged in the binding
(the demo constructs with `modulation_scheme="OOK"`). -/
inductive ModulationScheme where
  | OOK
  | PPM
  | PWM
deriving DecidableEq, Repr

/-- Modelled from the spec: `LaserConfiguration` (spec section 3), matching
the binding constructor `LaserEngine(laser_type, modulation_scheme,
max_power_mw, range_meters)`. -/
structure LaserConfiguration where
  laser_type : LaserType
  modulation_scheme : ModulationScheme
  max_power_mw : ℚ
  nominal_range_m : ℚ
deriving DecidableEq, Repr

/-- Modelled from the spec: `RangeMeasurement` (spec section 3).  Its
`uncertainty_m` derives from sensor timing resolution and the current
attenuation estimate (spec section 4.2), which is how the Link
Power/Modulation Controller sees the attenuation. -/
structure RangeMeasurement where
  distance_m : ℚ
  uncertainty_m : ℚ
  signal_quality : ℚ
  timestamp : ℚ
  range_category : RangeCategory
deriving DecidableEq, Repr

/-- Modelled from the spec: measurement uncertainty from sensor timing
resolution and the current attenuation estimate — wider under poor
visibility (spec section 4.2). -/
def uncertainty_from (timing_resolution_m attenuation_db : ℚ) : ℚ :=
  timing_resolution_m + attenuation_db / 10

/-- Modelled from the spec: `LinkParameters` (spec section 3), together with
the `degraded` flag of spec section 4.4 carried when the power clamp binds
with negative predicted margin. -/
structure LinkParameters where
  commanded_power_mw : ℚ
  active_modulation : ModulationScheme
  predicted_margin_db : ℚ
  degraded : Bool
deriving DecidableEq, Repr

/-- Modelled from the spec: the raw (unclamped) power the link needs —
non-decreasing in distance and in measurement uncertainty, the carrier of
the attenuation estimate (spec section 4.4). -/
def required_power_mw (distance_m uncertainty_m : ℚ) : ℚ :=
  1 + distance_m / 10 + uncertainty_m

/-- Modelled from the spec: `compute` of the Link Power/Modulation
Controller (spec section 4.4); the native implementation is missing from
the sources.  Refuses with `AlignmentRequired` when the link is not
aligned; otherwise clamps the required power to the hardware ceiling,
keeps the configured modulation scheme as the active one, and flags the
result degraded when the clamp binds with negative margin.  Pure function
of its three inputs. -/
def compute (range : RangeMeasurement) (alignment : AlignmentStatus)
    (config : LaserConfiguration) : Except LinkError LinkParameters :=
  if alignment.is_aligned = false then .error .AlignmentRequired
  else
    let raw := required_power_mw range.distance_m range.uncertainty_m
    let margin := config.max_power_mw - raw
    .ok { commanded_power_mw := min raw config.max_power_mw,
          active_modulation := config.modulation_scheme,
          predicted_margin_db := margin,
          degraded := decide (margin < 0) }

/-- The commanded power of a controller result, zero on failure; used to
state the concrete power-comparison scenario. -/
def commandedOf (r : Except LinkError LinkParameters) : ℚ :=
  match r with
  | .ok p => p.commanded_power_mw
  | .error _ => 0

/-- Modelled from the spec: a control trace maps every (range, alignment,
configuration) input of a cycle to the controller result of that cycle;
there is no carry-over state between cycles (spec section 4.4). -/
def controller_trace
    (inputs : List (RangeMeasurement × AlignmentStatus × LaserConfiguration)) :
    List (Except LinkError LinkParameters) :=
  inputs.map fun t => compute t.1 t.2.1 t.2.2

/-- Insert a rational into a list sorted in non-decreasing order. -/
def insertLe (x : ℚ) : List ℚ → List ℚ
  | [] => [x]
  | y :: ys => if x ≤ y then x :: y :: ys else y :: insertLe x ys

/-- Sort a list of rationals in non-decreasing order by insertion. -/
def sortQ (xs : List ℚ) : List ℚ := xs.foldr insertLe []

/-- Modelled from the spec: the sample median used by outlier rejection
(spec section 4.2) — the middle element of the sorted samples (the upper
middle for an even count). -/
def sampleMedian (xs : List ℚ) : ℚ :=
  (sortQ xs).getD (xs.length / 2) 0

/-- Modelled from the spec: the sample variance about the median — the mean
squared deviation of the samples from the sample median.  A sample is an
outlier when its deviation from the median exceeds the configured number of
standard deviations, i.e. when its squared deviation exceeds the squared
threshold times this variance. -/
def sampleVariance (xs : List ℚ) : ℚ :=
  (xs.map fun x => (x - sampleMedian xs) ^ 2).sum / (xs.length : ℚ)

/-- Modelled from the spec: the samples surviving outlier rejection — those
within `sigma_threshold` standard deviations of the sample median
(spec section 4.2). -/
def survivors (sigma_threshold : ℚ) (xs : List ℚ) : List ℚ :=
  xs.filter fun x =>
    decide ((x - sampleMedian xs) ^ 2 ≤ sigma_threshold ^ 2 * sampleVariance xs)

/-- Modelled from the spec: `measure_averaged` of the Range Sensor
(spec section 4.2); the native implementation is missing from the sources.
The acquired single measurements are passed in as the list of sampled
distances (its length is the sample count).  Outliers beyond the configured
number of standard deviations from the sample median are discarded, the
survivors are averaged, and the result carries `signal_quality` equal to
the fraction of samples retained; fails with `InsufficientSamples` when
the sample count is below one or all samples are discarded.  Returns the
averaged distance paired with the signal quality. -/
def measure_averaged (sigma_threshold : ℚ) (samples : List ℚ) :
    Except LinkError (ℚ × ℚ) :=
  if samples.length < 1 then .error .InsufficientSamples
  else if (survivors sigma_threshold samples).length = 0 then
    .error .InsufficientSamples
  else
    .ok ((survivors sigma_threshold samples).sum /
           ((survivors sigma_threshold samples).length : ℚ),
         ((survivors sigma_threshold samples).length : ℚ) / (samples.length : ℚ))

/-- Modelled from the spec: a transmission report (spec section 4.5):
bytes sent, frames sent, and frames that could not be scheduled due to a
mid-transmission alignment loss. -/
structure TransmissionReport where
  bytes_sent : ℕ
  frames_sent : ℕ
  frames_undelivered : ℕ
deriving DecidableEq, Repr

/-- Modelled from the spec: link-layer frame size in bytes for the active
modulation scheme (spec section 4.5: payload is framed into units sized for
the active modulation). -/
def frame_size_bytes : ModulationScheme → ℕ
  | .OOK => 32
  | .PPM => 16
  | .PWM => 8

/-- Number of link-layer frames needed for a payload. -/
def total_frames (payload_len frame_sz : ℕ) : ℕ :=
  (payload_len + frame_sz - 1) / frame_sz

/-- Modelled from the spec: `send` of the Transmission Path, exposed in the
binding as `transmit_data` (spec sections 4.5 and 4.6); the native
implementation is missing from the sources.  Re-validates at send time that
the parameters are not stale and that the alignment is still locked,
failing with `StaleParameters` or `LinkNotReady` before any frame is
transmitted; otherwise frames the payload for the active modulation.
`loss_after_frames` models a mid-transmission alignment loss after that
many frames (`none` when alignment holds throughout). -/
def send (payload : List ℕ) (params : LinkParameters)
    (alignment : AlignmentStatus) (stale : Bool) (loss_after_frames : Option ℕ) :
    Except LinkError TransmissionReport :=
  if stale then .error .StaleParameters
  else if alignment.is_aligned = false then .error .LinkNotReady
  else
    let fsz := frame_size_bytes params.active_modulation
    let total := total_frames payload.length fsz
    match loss_after_frames with
    | none => .ok ⟨payload.length, total, 0⟩
    | some k =>
        let sent := min k total
        .ok ⟨min (sent * fsz) payload.length, sent, total - sent⟩

/-- Frames transmitted by a send result: none at all on failure
(all-or-nothing guard). -/
def framesTransmitted (r : Except LinkError TransmissionReport) : ℕ :=
  match r with
  | .ok rep => rep.frames_sent
  | .error _ => 0

/-!
Embedding of `examples/python_range_detection_demo.py`.  Each call into the
`realgibber` binding may raise an exception; a demo run is parameterised by
a record of booleans saying which call sites raise.  Python exceptions are
modelled by the `Except Unit` monad: `.error ()` is an uncaught exception
propagating out of the function, `.ok b` is a normal return of `b`.
-/

/-- A call into the realgibber binding: raises or returns normally. -/
def pyCall (raises : Bool) : Except Unit Unit :=
  if raises then .error () else .ok ()

/-- A nested try/except Exception block whose handler only prints and lets
execution continue (demo_security_features, lines 252-270). -/
def swallow (x : Except Unit Unit) : Except Unit Unit :=
  match x with
  | .ok u => .ok u
  | .error _ => .ok ()

/-- Which realgibber calls of `demo_range_detection` raise (lines 27-79).
`detector_ctor_raises` is the `RangeDetector()` construction at line 33,
outside the try block; the rest are inside it. -/
structure RangeDemoCalls where
  detector_ctor_raises : Bool
  initialize_raises : Bool
  env_ctor_raises : Bool
  update_conditions_raises : Bool
  measure_distance_raises : Bool
  range_category_raises : Bool
  measure_averaged_raises : Bool
deriving DecidableEq, Repr

/-- `demo_range_detection` (lines 27-79): constructs the detector, then in a
try block initializes it, updates environmental conditions, measures once,
reads the range category and measures averaged; `except Exception` returns
`False`, otherwise returns `True`. -/
def demo_range_detection (c : RangeDemoCalls) : Except Unit Bool := do
  pyCall c.detector_ctor_raises
  match (do
      pyCall c.initialize_raises
      pyCall c.env_ctor_raises
      pyCall c.update_conditions_raises
      pyCall c.measure_distance_raises
      pyCall c.range_category_raises
      pyCall c.measure_averaged_raises : Except Unit Unit) with
  | .ok _ => pure true
  | .error _ => pure false

/-- Which realgibber calls of `demo_laser_communication` raise
(lines 82-126); all are inside the try block. -/
structure LaserDemoCalls where
  laser_ctor_raises : Bool
  laser_initialize_raises : Bool
  alignment_status_raises : Bool
  detector_ctor_raises : Bool
  detector_initialize_raises : Bool
  adaptive_mode_raises : Bool
  transmit_data_raises : Bool
deriving DecidableEq, Repr

/-- `demo_laser_communication` (lines 82-126): in a try block constructs and
initializes the laser engine, reads the alignment status, constructs and
initializes a range detector, enables adaptive mode and transmits data;
`except Exception` returns `False`, otherwise returns `True`. -/
def demo_laser_communication (c : LaserDemoCalls) : Except Unit Bool :=
  match (do
      pyCall c.laser_ctor_raises
      pyCall c.laser_initialize_raises
      pyCall c.alignment_status_raises
      pyCall c.detector_ctor_raises
      pyCall c.detector_initialize_raises
      pyCall c.adaptive_mode_raises
      pyCall c.transmit_data_raises : Except Unit Unit) with
  | .ok _ => pure true
  | .error _ => pure false

/-- Which realgibber calls of `demo_weather_integration` raise
(lines 129-201); all are inside the try block. -/
structure WeatherDemoCalls where
  manager_ctor_raises : Bool
  location_ctor_raises : Bool
  weather_data_ctor_raises : Bool
  update_weather_raises : Bool
  drone_specs_ctor_raises : Bool
  mission_ctor_raises : Bool
  assess_impact_raises : Bool
  validate_constraints_raises : Bool
deriving DecidableEq, Repr

/-- `demo_weather_integration` (lines 129-201): in a try block constructs
the weather manager, the location, the weather data, updates the weather,
constructs the drone specification and the mission payload, assesses the
weather impact and validates the mission constraints; `except Exception`
returns `False`, otherwise returns `True`. -/
def demo_weather_integration (c : WeatherDemoCalls) : Except Unit Bool :=
  match (do
      pyCall c.manager_ctor_raises
      pyCall c.location_ctor_raises
      pyCall c.weather_data_ctor_raises
      pyCall c.update_weather_raises
      pyCall c.drone_specs_ctor_raises
      pyCall c.mission_ctor_raises
      pyCall c.assess_impact_raises
      pyCall c.validate_constraints_raises : Except Unit Unit) with
  | .ok _ => pure true
  | .error _ => pure false

/-- Which realgibber calls of `demo_performance_monitoring` raise
(lines 204-237); all are inside the try block. -/
structure PerfDemoCalls where
  monitor_ctor_raises : Bool
  benchmark_suite_raises : Bool
  current_metrics_raises : Bool
deriving DecidableEq, Repr

/-- `demo_performance_monitoring` (lines 204-237): in a try block constructs
the monitor, runs the benchmark suite and reads the current metrics;
`except Exception` returns `False`, otherwise returns `True`. -/
def demo_performance_monitoring (c : PerfDemoCalls) : Except Unit Bool :=
  match (do
      pyCall c.monitor_ctor_raises
      pyCall c.benchmark_suite_raises
      pyCall c.current_metrics_raises : Except Unit Unit) with
  | .ok _ => pure true
  | .error _ => pure false

/-- Which realgibber calls of `demo_security_features` raise
(lines 240-276).  The manager construction is directly inside the outer try
block; the PIN validation and the two permission checks sit in nested
try/except blocks whose handlers only print. -/
structure SecurityDemoCalls where
  manager_ctor_raises : Bool
  validate_pin_raises : Bool
  check_read_raises : Bool
  check_execute_raises : Bool
deriving DecidableEq, Repr

/-- `demo_security_features` (lines 240-276): in a try block constructs the
security manager, then runs the PIN validation and two permission checks,
each wrapped in its own nested try/except whose handler only prints;
the outer `except Exception` returns `False`, otherwise returns `True`. -/
def demo_security_features (c : SecurityDemoCalls) : Except Unit Bool :=
  match (do
      pyCall c.manager_ctor_raises
      swallow (pyCall c.validate_pin_raises)
      swallow (pyCall c.check_read_raises)
      swallow (pyCall c.check_execute_raises) : Except Unit Unit) with
  | .ok _ => pure true
  | .error _ => pure false

/-- The call-site raise flags of one run of `main` (lines 279-321). -/
structure DemoEnv where
  range_calls : RangeDemoCalls
  laser_calls : LaserDemoCalls
  weather_calls : WeatherDemoCalls
  perf_calls : PerfDemoCalls
  security_calls : SecurityDemoCalls
deriving DecidableEq, Repr

/-- `main` (lines 287-301): runs the five demo functions in order and
collects their boolean results. -/
def demo_results (e : DemoEnv) : Except Unit (List Bool) := do
  let r1 ← demo_range_detection e.range_calls
  let r2 ← demo_laser_communication e.laser_calls
  let r3 ← demo_weather_integration e.weather_calls
  let r4 ← demo_performance_monitoring e.perf_calls
  let r5 ← demo_security_features e.security_calls
  pure [r1, r2, r3, r4, r5]

/-- The summary loop of `main` (lines 306-311): `successful` starts at zero
and is incremented once for every result that is `True`. -/
def count_successful (rs : List Bool) : ℕ :=
  rs.foldl (fun acc b => if b then acc + 1 else acc) 0

/-- The summary of `main` (lines 306-316): the successful count, and
whether the all-demonstrations-successful message is printed, which happens
exactly when `successful == len(results)`. -/
def main_summary (rs : List Bool) : ℕ × Bool :=
  (count_successful rs, count_successful rs == rs.length)

/-- Some realgibber call inside the try block of `demo_range_detection`
raises. -/
def anyRangeTryRaise (c : RangeDemoCalls) : Bool :=
  c.initialize_raises || c.env_ctor_raises || c.update_conditions_raises ||
  c.measure_distance_raises || c.range_category_raises || c.measure_averaged_raises

/-- Some realgibber call inside the try block of `demo_laser_communication`
raises. -/
def anyLaserTryRaise (c : LaserDemoCalls) : Bool :=
  c.laser_ctor_raises || c.laser_initialize_raises || c.alignment_status_raises ||
  c.detector_ctor_raises || c.detector_initialize_raises ||
  c.adaptive_mode_raises || c.transmit_data_raises

/-- Some realgibber call inside the try block of `demo_weather_integration`
raises. -/
def anyWeatherTryRaise (c : WeatherDemoCalls) : Bool :=
  c.manager_ctor_raises || c.location_ctor_raises || c.weather_data_ctor_raises ||
  c.update_weather_raises || c.drone_specs_ctor_raises || c.mission_ctor_raises ||
  c.assess_impact_raises || c.validate_constraints_raises

/-- Some realgibber call inside the try block of
`demo_performance_monitoring` raises. -/
def anyPerfTryRaise (c : PerfDemoCalls) : Bool :=
  c.monitor_ctor_raises || c.benchmark_suite_raises || c.current_metrics_raises

/-! Concrete inputs taken from the demo script. -/

/-- The demo laser configuration:
`LaserEngine("Visible", "OOK", 50.0, 100.0)` (demo lines 89-94). -/
def demoLaserConfig : LaserConfiguration := ⟨.Visible, .OOK, 50, 100⟩

/-- The demo environmental conditions (demo lines 41-47): temperature 22.5,
humidity 65, pressure 1013.25, wind 2.1, visibility 15000. -/
def demoConditions : EnvironmentalConditions :=
  ⟨45 / 2, 65, 4053 / 4, 21 / 10, 15000⟩

/-- A measurement of the modelled Range Sensor at a given distance under the
demo conditions, with timing resolution 1/100 m. -/
def demoMeasurement (d : ℚ) : RangeMeasurement :=
  { distance_m := d,
    uncertainty_m := uncertainty_from (1 / 100) (attenuation demoConditions d),
    signal_quality := 1,
    timestamp := 0,
    range_category := range_category defaultThresholds d }

/-- An alignment status of a locked link. -/
def demoAligned : AlignmentStatus := ⟨true, 1 / 10, 1 / 10, 5⟩

/-- Ten averaged samples with one wild outlier (spec section 8 scenario;
demo lines 66-67 request ten samples). -/
def scenarioSamples : List ℚ := [10, 10, 10, 10, 10, 10, 10, 10, 10, 100]

/-- The 66-byte demo payload length: the demo transmits a 66-character test
message (demo lines 116-119). -/
def demoPayload : List ℕ := List.replicate 66 72

/-- Link parameters as computed for the demo configuration at close range. -/
def demoParams : LinkParameters := ⟨6, .OOK, 44, false⟩

/-! Theorems settling the claims. -/

/-- C7: an `EnvironmentalConditions` update whose fields violate the
invariants (temperature outside [-60, 85], humidity outside [0, 100],
pressure not positive, or negative visibility) is rejected with
`InvalidConditions` rather than clamped, and the previously active
conditions remain the effective ones. -/
theorem C7_invalid_update_rejected :
    ∀ active new : EnvironmentalConditions, conditionsValid new = false →
      update_environmental_conditions new = .error .InvalidConditions ∧
      effectiveAfterUpdate active new = active := by
  intro active new h
  refine ⟨?_, ?_⟩
  · simp [update_environmental_conditions, h]
  · simp [effectiveAfterUpdate, update_environmental_conditions, h]

/-- Witness for C7: a 100-degree update against active demo conditions is
rejected and leaves the demo conditions effective. -/
theorem C7_invalid_update_rejected_witness :
    update_environmental_conditions ⟨100, 50, 1000, 0, 10000⟩ =
      .error .InvalidConditions ∧
    effectiveAfterUpdate demoConditions ⟨100, 50, 1000, 0, 10000⟩ =
      demoConditions :=
  C7_invalid_update_rejected demoConditions ⟨100, 50, 1000, 0, 10000⟩ (by decide)

/-- C2: `compute` fails with `AlignmentRequired` whenever
`alignment.is_aligned` is false, for every measurement, alignment status
and configuration — no power is ever commanded to an unlocked link. -/
theorem C2_compute_requires_alignment :
    ∀ (range : RangeMeasurement) (alignment : AlignmentStatus)
      (config : LaserConfiguration), alignment.is_aligned = false →
      compute range alignment config = .error .AlignmentRequired := by
  intro r a c h
  simp [compute, h]

/-- Witness for C2: with the tracker in state `Lost` the exported status is
not aligned and `compute` fails with `AlignmentRequired`. -/
theorem C2_compute_requires_alignment_witness :
    (alignment_status ⟨.Lost, 1, 1, 0, 0⟩).is_aligned = false ∧
    compute (demoMeasurement 50) (alignment_status ⟨.Lost, 1, 1, 0, 0⟩)
        demoLaserConfig = .error .AlignmentRequired :=
  ⟨rfl, C2_compute_requires_alignment _ _ _ rfl⟩

/-- C5: for ordered thresholds, every non-negative distance lies in exactly
one band and `range_category` returns that band; a distance exactly at a
band boundary maps to the farther band. -/
theorem C5_range_category_partition :
    ∀ th : RangeThresholds, th.near_max < th.medium_max →
      th.medium_max < th.far_max →
      (∀ d : ℚ, 0 ≤ d →
        inBand th (range_category th d) d ∧
        ∀ c : RangeCategory, inBand th c d → c = range_category th d) ∧
      range_category th th.near_max = .Medium ∧
      range_category th th.medium_max = .Far ∧
      range_category th th.far_max = .Extreme := by
  intro th h1 h2
  refine ⟨?_, ?_, ?_, ?_⟩
  · intro d _
    unfold range_category
    split_ifs with ha hb hc
    · refine ⟨ha, ?_⟩
      intro c hc2
      cases c with
      | Near => rfl
      | Medium => simp [inBand] at hc2 ⊢; linarith [hc2.1]
      | Far => simp [inBand] at hc2 ⊢; linarith [hc2.1]
      | Extreme => simp [inBand] at hc2 ⊢; linarith [hc2]
    · refine ⟨⟨not_lt.mp ha, hb⟩, ?_⟩
      intro c hc2
      cases c with
      | Near => simp [inBand] at hc2 ⊢; linarith [not_lt.mp ha]
      | Medium => rfl
      | Far => simp [inBand] at hc2 ⊢; linarith [hc2.1]
      | Extreme => simp [inBand] at hc2 ⊢; linarith [hc2]
    · refine ⟨⟨not_lt.mp hb, hc⟩, ?_⟩
      intro c hc2
      cases c with
      | Near => simp [inBand] at hc2 ⊢; linarith [not_lt.mp hb]
      | Medium => simp [inBand] at hc2 ⊢; linarith [not_lt.mp hb, hc2.2]
      | Far => rfl
      | Extreme => simp [inBand] at hc2 ⊢; linarith [hc2]
    · refine ⟨not_lt.mp hc, ?_⟩
      intro c hc2
      cases c with
      | Near => simp [inBand] at hc2 ⊢; linarith [not_lt.mp hc]
      | Medium => simp [inBand] at hc2 ⊢; linarith [not_lt.mp hc, hc2.2]
      | Far => simp [inBand] at hc2 ⊢; linarith [not_lt.mp hc, hc2.2]
      | Extreme => rfl
  · unfold range_category
    rw [if_neg (lt_irrefl _), if_pos h1]
  · unfold range_category
    rw [if_neg (by linarith), if_neg (lt_irrefl _), if_pos h2]
  · unfold range_category
    rw [if_neg (by linarith), if_neg (by linarith), if_neg (lt_irrefl _)]

/-- Witness for C5: under the default thresholds, 50 m lies in the band of
its category, only that band, and the three boundary distances map to the
farther bands. -/
theorem C5_range_category_partition_witness :
    (inBand defaultThresholds (range_category defaultThresholds 50) 50 ∧
      ∀ c : RangeCategory, inBand defaultThresholds c 50 →
        c = range_category defaultThresholds 50) ∧
    range_category defaultThresholds defaultThresholds.near_max = .Medium ∧
    range_category defaultThresholds defaultThresholds.medium_max = .Far ∧
    range_category defaultThresholds defaultThresholds.far_max = .Extreme := by
  have h := C5_range_category_partition defaultThresholds (by norm_num [defaultThresholds])
    (by norm_num [defaultThresholds])
  exact ⟨h.1 50 (by norm_num), h.2⟩

/-- On an aligned link the commanded power is the required power clamped to
the configured ceiling. -/
theorem commandedOf_compute (r : RangeMeasurement) (a : AlignmentStatus)
    (c : LaserConfiguration) (h : a.is_aligned = true) :
    commandedOf (compute r a c) =
      min (required_power_mw r.distance_m r.uncertainty_m) c.max_power_mw := by
  simp [compute, h, commandedOf]

/-- The required power is monotone in distance and in uncertainty. -/
theorem required_power_mw_mono {d1 d2 u1 u2 : ℚ} (hd : d1 ≤ d2) (hu : u1 ≤ u2) :
    required_power_mw d1 u1 ≤ required_power_mw d2 u2 := by
  unfold required_power_mw
  linarith

/-- C3: the commanded power of `compute` is monotonically non-decreasing in
distance (uncertainty fixed) and in the attenuation estimate carried into
the measurement uncertainty (distance fixed), and is clamped to
`config.max_power_mw`; at distance 50 m under the demo conditions
(visibility 15000 m, temperature 22.5) it is strictly less than at distance
500 m under identical other conditions. -/
theorem C3_power_monotone_clamped :
    (∀ (r1 r2 : RangeMeasurement) (a : AlignmentStatus)
        (c : LaserConfiguration), a.is_aligned = true →
        r1.uncertainty_m = r2.uncertainty_m → r1.distance_m ≤ r2.distance_m →
        commandedOf (compute r1 a c) ≤ commandedOf (compute r2 a c)) ∧
    (∀ (r1 r2 : RangeMeasurement) (a : AlignmentStatus)
        (c : LaserConfiguration) (res att1 att2 : ℚ), a.is_aligned = true →
        r1.distance_m = r2.distance_m →
        r1.uncertainty_m = uncertainty_from res att1 →
        r2.uncertainty_m = uncertainty_from res att2 → att1 ≤ att2 →
        commandedOf (compute r1 a c) ≤ commandedOf (compute r2 a c)) ∧
    (∀ (r : RangeMeasurement) (a : AlignmentStatus) (c : LaserConfiguration),
        a.is_aligned = true →
        commandedOf (compute r a c) ≤ c.max_power_mw) ∧
    commandedOf (compute (demoMeasurement 50) demoAligned demoLaserConfig) <
      commandedOf (compute (demoMeasurement 500) demoAligned demoLaserConfig) := by
  refine ⟨?_, ?_, ?_, ?_⟩
  · intro r1 r2 a c ha hu hd
    rw [commandedOf_compute r1 a c ha, commandedOf_compute r2 a c ha]
    exact min_le_min (required_power_mw_mono hd hu.le) le_rfl
  · intro r1 r2 a c res att1 att2 ha hd hu1 hu2 hatt
    rw [commandedOf_compute r1 a c ha, commandedOf_compute r2 a c ha, hd, hu1, hu2]
    refine min_le_min (required_power_mw_mono le_rfl ?_) le_rfl
    unfold uncertainty_from
    linarith
  · intro r a c ha
    rw [commandedOf_compute r a c ha]
    exact min_le_right _ _
  · rw [commandedOf_compute _ _ _ rfl, commandedOf_compute _ _ _ rfl]
    norm_num [demoMeasurement, demoLaserConfig, demoConditions, required_power_mw,
      uncertainty_from, attenuation, min_def]

/-- Witness for C3: the monotonicity and the clamp applied at concrete
measurements differing only in distance. -/
theorem C3_power_monotone_clamped_witness :
    commandedOf (compute ⟨50, 11 / 1000, 1, 0, .Medium⟩ demoAligned demoLaserConfig) ≤
      commandedOf (compute ⟨500, 11 / 1000, 1, 0, .Far⟩ demoAligned demoLaserConfig) ∧
    commandedOf (compute ⟨50, 11 / 1000, 1, 0, .Medium⟩ demoAligned demoLaserConfig) ≤
      demoLaserConfig.max_power_mw :=
  ⟨C3_power_monotone_clamped.1 ⟨50, 11 / 1000, 1, 0, .Medium⟩
      ⟨500, 11 / 1000, 1, 0, .Far⟩ demoAligned demoLaserConfig rfl rfl (by norm_num),
   C3_power_monotone_clamped.2.2.1 ⟨50, 11 / 1000, 1, 0, .Medium⟩
      demoAligned demoLaserConfig rfl⟩

/-- C4: the controller carries no state between control cycles: in any
control trace, two cycles fed the identical (range, alignment,
configuration) triple produce identical results. -/
theorem C4_compute_idempotent :
    ∀ (tr : List (RangeMeasurement × AlignmentStatus × LaserConfiguration))
      (i j : ℕ) (hi : i < tr.length) (hj : j < tr.length)
      (hi2 : i < (controller_trace tr).length)
      (hj2 : j < (controller_trace tr).length),
      tr.get ⟨i, hi⟩ = tr.get ⟨j, hj⟩ →
      (controller_trace tr).get ⟨i, hi2⟩ = (controller_trace tr).get ⟨j, hj2⟩ := by
  intro tr i j hi hj hi2 hj2 h
  simp only [controller_trace, List.get_eq_getElem, List.getElem_map]
  simp only [List.get_eq_getElem] at h
  rw [h]

/-- Witness for C4: a two-cycle trace repeating the same triple yields the
same result at both cycles. -/
theorem C4_compute_idempotent_witness :
    (controller_trace [(demoMeasurement 50, demoAligned, demoLaserConfig),
        (demoMeasurement 50, demoAligned, demoLaserConfig)]).get ⟨0, by decide⟩ =
    (controller_trace [(demoMeasurement 50, demoAligned, demoLaserConfig),
        (demoMeasurement 50, demoAligned, demoLaserConfig)]).get ⟨1, by decide⟩ :=
  C4_compute_idempotent _ 0 1 (by decide) (by decide) (by decide) (by decide) rfl

/-- C6: `measure_averaged` fails with `InsufficientSamples` exactly when
the sample count is below one or every sample is discarded as an outlier
(beyond the configured number of standard deviations from the sample
median); on success it returns the average of the surviving samples and a
`signal_quality` equal to the fraction of samples retained. -/
theorem C6_measure_averaged_contract :
    ∀ (sigma_threshold : ℚ) (samples : List ℚ),
      (measure_averaged sigma_threshold samples = .error .InsufficientSamples ↔
        samples.length < 1 ∨ survivors sigma_threshold samples = []) ∧
      (∀ d q : ℚ, measure_averaged sigma_threshold samples = .ok (d, q) →
        d = (survivors sigma_threshold samples).sum /
              ((survivors sigma_threshold samples).length : ℚ) ∧
        q = ((survivors sigma_threshold samples).length : ℚ) /
              (samples.length : ℚ)) := by
  intro k samples
  constructor
  · constructor
    · intro h
      by_cases h1 : samples.length < 1
      · exact Or.inl h1
      · right
        by_contra hne
        have hlen : ¬ (survivors k samples).length = 0 := by
          simpa [List.length_eq_zero] using hne
        simp [measure_averaged, h1, hlen] at h
    · rintro (h | h)
      · simp [measure_averaged, h]
      · have hlen : (survivors k samples).length = 0 := by simp [h]
        by_cases h1 : samples.length < 1
        · simp [measure_averaged, h1]
        · simp [measure_averaged, h1, hlen]
  · intro d q h
    by_cases h1 : samples.length < 1
    · simp [measure_averaged, h1] at h
    · by_cases h2 : (survivors k samples).length = 0
      · simp [measure_averaged, h1, h2] at h
      · simp [measure_averaged, h1, h2] at h
        exact ⟨h.1.symm, h.2.symm⟩

/-- Witness for C6: ten samples with one wild outlier — the outlier is
discarded and the reported quality, produced by `measure_averaged`, is the
fraction 9/10 of samples retained. -/
theorem C6_measure_averaged_contract_witness :
    (10 : ℚ) = (survivors 2 scenarioSamples).sum /
        ((survivors 2 scenarioSamples).length : ℚ) ∧
    (9 / 10 : ℚ) = ((survivors 2 scenarioSamples).length : ℚ) /
        ((scenarioSamples).length : ℚ) :=
  (C6_measure_averaged_contract 2 scenarioSamples).2 10 (9 / 10) (by
    have hs : survivors 2 scenarioSamples = [10, 10, 10, 10, 10, 10, 10, 10, 10] := by
      norm_num [survivors, sampleVariance, sampleMedian, sortQ, insertLe,
        scenarioSamples, List.filter]
    rw [measure_averaged, hs]
    norm_num [scenarioSamples])

/-- C8: `tracker_step` reaches `Locked` only from a state that is already
`Locked` or from `Searching` with the sample within the locking tolerance
and the accumulated in-tolerance time reaching the minimum dwell time;
consequently a single in-tolerance sample shorter than the dwell time never
makes a searching link report `is_aligned`. -/
theorem C8_lock_requires_dwell :
    ∀ (cfg : TrackerConfig) (st : TrackerState) (s : FeedbackSample),
      ((tracker_step cfg st s).state = .Locked →
        st.state = .Locked ∨
          (st.state = .Searching ∧ withinTol cfg.lock_tolerance_deg s = true ∧
            cfg.min_dwell_time_s ≤ st.in_tolerance_time_s + s.dt_s)) ∧
      (st.state = .Searching → st.in_tolerance_time_s = 0 →
        s.dt_s < cfg.min_dwell_time_s →
        (alignment_status (tracker_step cfg st s)).is_aligned = false) := by
  intro cfg st s
  constructor
  · intro h
    unfold tracker_step at h
    cases hst : st.state with
    | Unlocked => rw [hst] at h; simp at h
    | Searching =>
        rw [hst] at h
        by_cases hw : withinTol cfg.lock_tolerance_deg s
        · simp only [hw, if_true] at h
          by_cases hd : cfg.min_dwell_time_s ≤ st.in_tolerance_time_s + s.dt_s
          · exact Or.inr ⟨rfl, hw, hd⟩
          · simp only [hd, if_false] at h
            simp at h
        · simp only [hw, if_false] at h
          simp at h
    | Locked => exact Or.inl rfl
    | Lost => rw [hst] at h; simp at h
  · intro hst hz hlt
    unfold alignment_status tracker_step
    rw [hst]
    by_cases hw : withinTol cfg.lock_tolerance_deg s
    · simp only [hw, if_true]
      have : ¬ cfg.min_dwell_time_s ≤ st.in_tolerance_time_s + s.dt_s := by
        rw [hz]; simpa using hlt
      simp [this]
    · simp [hw]

/-- Witness for C8: a fresh searching tracker fed one in-tolerance sample
of 0.3 s against a 1 s dwell requirement does not report alignment. -/
theorem C8_lock_requires_dwell_witness :
    (alignment_status (tracker_step ⟨1 / 2, 1, 1, 2⟩
        ⟨.Searching, 0, 0, 0, 0⟩ ⟨1 / 10, 1 / 10, 3 / 10⟩)).is_aligned = false :=
  (C8_lock_requires_dwell ⟨1 / 2, 1, 1, 2⟩ ⟨.Searching, 0, 0, 0, 0⟩
      ⟨1 / 10, 1 / 10, 3 / 10⟩).2 rfl rfl (by norm_num)

/-- C1: `send` with stale parameters or an unlocked link fails without
transmitting any frame; with a valid (locked, non-stale) link and no
mid-transmission alignment loss it transmits exactly the payload length in
bytes, framed for the active modulation, with zero undelivered frames. -/
theorem C1_send_all_or_nothing :
    ∀ (payload : List ℕ) (params : LinkParameters) (alignment : AlignmentStatus)
      (stale : Bool) (loss_after_frames : Option ℕ),
      ((stale = true ∨ alignment.is_aligned = false) →
        (∃ e, send payload params alignment stale loss_after_frames = .error e) ∧
        framesTransmitted (send payload params alignment stale loss_after_frames) = 0) ∧
      (stale = false → alignment.is_aligned = true →
        send payload params alignment stale none =
          .ok ⟨payload.length,
               total_frames payload.length (frame_size_bytes params.active_modulation),
               0⟩) := by
  intro payload params alignment stale loss
  constructor
  · rintro (hs | ha)
    · subst hs
      exact ⟨⟨.StaleParameters, by simp [send]⟩, by simp [send, framesTransmitted]⟩
    · cases stale with
      | true => exact ⟨⟨.StaleParameters, by simp [send]⟩, by simp [send, framesTransmitted]⟩
      | false =>
          exact ⟨⟨.LinkNotReady, by simp [send, ha]⟩,
                 by simp [send, ha, framesTransmitted]⟩
  · intro hs ha
    subst hs
    simp [send, ha]

/-- Witness for C1: on the demo payload and demo parameters, a stale send
fails while a valid send reports all 66 bytes in 3 OOK frames with zero
undelivered. -/
theorem C1_send_all_or_nothing_witness :
    (∃ e, send demoPayload demoParams demoAligned true none = .error e) ∧
    send demoPayload demoParams demoAligned false none =
      .ok ⟨demoPayload.length,
           total_frames demoPayload.length (frame_size_bytes demoParams.active_modulation),
           0⟩ :=
  ⟨((C1_send_all_or_nothing demoPayload demoParams demoAligned true none).1
      (Or.inl rfl)).1,
   (C1_send_all_or_nothing demoPayload demoParams demoAligned false none).2 rfl rfl⟩

/-- Counterexample for C9 as stated: in `demo_security_features` the
realgibber call `security.validate_pin("1234")` sits inside the
function's try block; when it raises, the exception is caught (by the
nested handler), yet the function returns `True`, not `False`. -/
theorem C9_counterexample_security_true :
    (⟨false, true, false, false⟩ : SecurityDemoCalls).validate_pin_raises = true ∧
    demo_security_features ⟨false, true, false, false⟩ = .ok true :=
  ⟨rfl, by decide⟩

/-- C9 (amended): every demo function returns a boolean and never
propagates an exception raised inside its try block (for
`demo_range_detection` provided the `RangeDetector()` construction outside
the try block does not raise).  For the range, laser, weather and
performance demos an exception raised by a realgibber call inside the try
block makes the function return `False`; `demo_security_features` returns
`False` for an exception from the `SecurityManager` construction, while
exceptions from the PIN validation and permission checks are caught by
nested handlers and do not force a `False` return. -/
theorem C9_demo_exception_handling :
    ∀ (r : RangeDemoCalls) (l : LaserDemoCalls) (w : WeatherDemoCalls)
      (p : PerfDemoCalls) (s : SecurityDemoCalls),
      (r.detector_ctor_raises = false →
        (demo_range_detection r).isOk = true) ∧
      (demo_laser_communication l).isOk = true ∧
      (demo_weather_integration w).isOk = true ∧
      (demo_performance_monitoring p).isOk = true ∧
      (demo_security_features s).isOk = true ∧
      (r.detector_ctor_raises = false →
        anyRangeTryRaise r = true →
        demo_range_detection r = .ok false) ∧
      (anyLaserTryRaise l = true →
        demo_laser_communication l = .ok false) ∧
      (anyWeatherTryRaise w = true →
        demo_weather_integration w = .ok false) ∧
      (anyPerfTryRaise p = true →
        demo_performance_monitoring p = .ok false) ∧
      (s.manager_ctor_raises = true →
        demo_security_features s = .ok false) := by
  rintro ⟨a0, a1, a2, a3, a4, a5, a6⟩ ⟨b1, b2, b3, b4, b5, b6, b7⟩
          ⟨c1, c2, c3, c4, c5, c6, c7, c8⟩ ⟨d1, d2, d3⟩ ⟨s1, s2, s3, s4⟩
  refine ⟨?_, ?_, ?_, ?_, ?_, ?_, ?_, ?_, ?_, ?_⟩
  · rintro rfl
    cases a1 <;> cases a2 <;> cases a3 <;> cases a4 <;> cases a5 <;> cases a6 <;> decide
  · cases b1 <;> cases b2 <;> cases b3 <;> cases b4 <;> cases b5 <;> cases b6 <;>
      cases b7 <;> decide
  · cases c1 <;> cases c2 <;> cases c3 <;> cases c4 <;> cases c5 <;> cases c6 <;>
      cases c7 <;> cases c8 <;> decide
  · cases d1 <;> cases d2 <;> cases d3 <;> decide
  · cases s1 <;> cases s2 <;> cases s3 <;> cases s4 <;> decide
  · rintro rfl
    cases a1 <;> cases a2 <;> cases a3 <;> cases a4 <;> cases a5 <;> cases a6 <;> decide
  · cases b1 <;> cases b2 <;> cases b3 <;> cases b4 <;> cases b5 <;> cases b6 <;>
      cases b7 <;> decide
  · cases c1 <;> cases c2 <;> cases c3 <;> cases c4 <;> cases c5 <;> cases c6 <;>
      cases c7 <;> cases c8 <;> decide
  · cases d1 <;> cases d2 <;> cases d3 <;> decide
  · rintro rfl
    cases s2 <;> cases s3 <;> cases s4 <;> decide

/-- Witness for C9: in a run where one in-try call of each of the four
outer-handler demos raises and the security manager construction raises,
every demo stays a boolean and the five results are all `False`. -/
theorem C9_demo_exception_handling_witness :
    demo_range_detection ⟨false, true, false, false, false, false, false⟩ = .ok false ∧
    demo_laser_communication ⟨true, false, false, false, false, false, false⟩ = .ok false ∧
    demo_weather_integration ⟨true, false, false, false, false, false, false, false⟩ = .ok false ∧
    demo_performance_monitoring ⟨true, false, false⟩ = .ok false ∧
    demo_security_features ⟨true, false, false, false⟩ = .ok false := by
  have h := C9_demo_exception_handling
    ⟨false, true, false, false, false, false, false⟩
    ⟨true, false, false, false, false, false, false⟩
    ⟨true, false, false, false, false, false, false, false⟩
    ⟨true, false, false⟩ ⟨true, false, false, false⟩
  exact ⟨h.2.2.2.2.2.1 rfl rfl, h.2.2.2.2.2.2.1 rfl, h.2.2.2.2.2.2.2.1 rfl,
         h.2.2.2.2.2.2.2.2.1 rfl, h.2.2.2.2.2.2.2.2.2 rfl⟩

/-- The summary loop accumulator counts exactly the `True` results. -/
theorem count_successful_eq (rs : List Bool) : count_successful rs = rs.count true := by
  suffices h : ∀ acc : ℕ,
      rs.foldl (fun acc b => if b then acc + 1 else acc) acc = acc + rs.count true by
    simpa [count_successful] using h 0
  induction rs with
  | nil => intro acc; simp
  | cons x xs ih =>
      intro acc
      cases x <;> simp [List.count_cons, ih] <;> omega

/-- A count of `True` results equal to the list length means every result
is `True`. -/
theorem count_true_eq_length_iff (rs : List Bool) :
    rs.count true = rs.length ↔ ∀ b ∈ rs, b = true := by
  induction rs with
  | nil => simp
  | cons x xs ih =>
      cases x
      · simp only [List.count_cons, List.length_cons]
        constructor
        · intro h
          exfalso
          have hle := List.count_le_length true xs
          simp at h
          omega
        · intro h
          exfalso
          exact Bool.false_ne_true (h false (by simp))
      · simp only [List.count_cons, List.length_cons]
        constructor
        · intro h
          intro b hb
          rcases List.mem_cons.mp hb with hb | hb
          · rw [hb]
          · have : xs.count true = xs.length := by simp at h; omega
            exact ih.mp this b hb
        · intro h
          have : xs.count true = xs.length :=
            ih.mpr fun b hb => h b (List.mem_cons_of_mem _ hb)
          simp [this]

/-- C10: whenever `main` collects the five demo results, the successful
count of the summary equals the number of demos that returned `True`, and
the all-demonstrations-successful message is printed exactly when every
demo returned `True`. -/
theorem C10_main_summary_correct :
    ∀ (e : DemoEnv) (rs : List Bool), demo_results e = .ok rs →
      (main_summary rs).1 = rs.count true ∧
      ((main_summary rs).2 = true ↔ ∀ b ∈ rs, b = true) := by
  intro e rs _
  constructor
  · exact count_successful_eq rs
  · show (count_successful rs == rs.length) = true ↔ _
    rw [count_successful_eq, beq_iff_eq]
    exact count_true_eq_length_iff rs

/-- Witness for C10: a run in which no call raises collects five `True`
results; the summary counts five and the success message is printed. -/
theorem C10_main_summary_correct_witness :
    (main_summary [true, true, true, true, true]).1 =
      ([true, true, true, true, true] : List Bool).count true ∧
    ((main_summary [true, true, true, true, true]).2 = true ↔
      ∀ b ∈ ([true, true, true, true, true] : List Bool), b = true) :=
  C10_main_summary_correct
    ⟨⟨false, false, false, false, false, false, false⟩,
     ⟨false, false, false, false, false, false, false⟩,
     ⟨false, false, false, false, false, false, false, false⟩,
     ⟨false, false, false⟩, ⟨false, false, false, false⟩⟩
    [true, true, true, true, true] (by decide)

end RealGibber
